import Mathlib

/-!
Formal model of the AMD SEV-SNP guest-launch subsystem (crate `snp`).

The Rust source is shallowly embedded: machine integers (`u8`, `u16`, `u32`,
`u64`) are modelled as `Nat`, with explicit `% 2^w` exactly where the source
performs a narrowing `as` cast, and with `< 2^w` side conditions where a
theorem depends on the width of a source-typed field.  Fallible operations
return `Except`; the external `ioctl` submission primitive (out of scope for
the crate, provided by `iocuddle`/the kernel) is a parameter
`submit : Nat → Command → Except ε Unit` taking the raw fd of the target
handle and the command envelope.  Raw pointers crossing the privilege
boundary are modelled as ghost `Nat` addresses.
-/

namespace Snp

/-! ### Policy flags (src/launch/mod.rs, `bitflags! PolicyFlags: u16`) -/

namespace PolicyFlags

/-- `const SMT = 0b0000000000000001;` -/
def SMT : Nat := 0b0000000000000001

/-- `const RESERVED = 0b0000000000000010;` -/
def RESERVED : Nat := 0b0000000000000010

/-- `const MIGRATE_MA = 0b0000000000000100;` -/
def MIGRATE_MA : Nat := 0b0000000000000100

/-- `const DEBUG = 0b0000000000001000;` -/
def DEBUG : Nat := 0b0000000000001000

/-- `PolicyFlags::to_u16` from src/launch/mod.rs: tests each caller flag with
`self & flag == flag`, ORs in its wire bit, and unconditionally ORs in `0b10`
(the Reserved wire bit) at the end. -/
def to_u16 (f : Nat) : Nat :=
  let val : Nat := 0
  let val := if f &&& SMT = SMT then val ||| 0b1 else val
  let val := if f &&& MIGRATE_MA = MIGRATE_MA then val ||| 0b100 else val
  let val := if f &&& DEBUG = DEBUG then val ||| 0b1000 else val
  val ||| 0b10

end PolicyFlags

/-- Modelled from the spec: the firmware `Version` struct (`minfw`) is not
among the provided source files (it arrives through `use super::*`); the spec
describes it as a minimum firmware version `{major, minor}`, each one byte
wide (they occupy bits `[8,16)` and `[0,8)` of the 24-bit policy encoding). -/
structure Version where
  major : Nat
  minor : Nat

/-- `Policy` from src/launch/mod.rs: `flags` (a `PolicyFlags`, i.e. a `u16`
bitset, here a `Nat`) plus the minimum firmware version. -/
structure Policy where
  flags : Nat
  minfw : Version

/-- `Policy::to_u64` from src/launch/mod.rs:
`val |= minor; val |= major << 8; val |= u64::from(flags.to_u16()) << 16;
val &= 0x00FFFFFF`. -/
def Policy.to_u64 (p : Policy) : Nat :=
  let minor_version := p.minfw.minor
  let major_version := p.minfw.major <<< 8
  let flags_64 := (PolicyFlags.to_u16 p.flags) <<< 16
  (minor_version ||| major_version ||| flags_64) &&& 0x00FFFFFF

/-! ### Page types (src/launch/mod.rs, `enum PageType`) -/

/-- `PageType` from src/launch/mod.rs (Table 58 of the SNP firmware spec). -/
inductive PageType where
  | Normal
  | Vmsa
  | Zero
  | Unmeasured
  | Secrets
  | Cpuid
deriving DecidableEq

/-- `PageType::value` from src/launch/mod.rs. -/
def PageType.value : PageType → Nat
  | .Normal => 0x1
  | .Vmsa => 0x2
  | .Zero => 0x3
  | .Unmeasured => 0x4
  | .Secrets => 0x5
  | .Cpuid => 0x6

/-! ### Request structs (src/launch/mod.rs) -/

/-- `Start` from src/launch/mod.rs.  `ma_uaddr` is a `u64`, `ma_en` and
`imi_en` are `u8`, `gosvw` is `[u8; 16]` (modelled as a byte list). -/
structure Start where
  policy : Policy
  ma_uaddr : Nat
  ma_en : Nat
  imi_en : Nat
  gosvw : List Nat

/-- `Update` from src/launch/mod.rs. -/
structure Update where
  imi_page : Nat
  page_type : PageType
  vmpl3_perms : Nat
  vmpl2_perms : Nat
  vmpl1_perms : Nat

/-- Modelled from the spec: the `Finish` request struct is not among the
provided source files (it arrives through `use super::*`); the spec describes
it as two optional-address fields with presence flags plus a 32-byte opaque
host-data blob, and `LaunchFinish::new` in src/kvm/types.rs reads exactly the
fields `id_block_uaddr`, `id_auth_uaddr`, `id_block_en`, `auth_key_en` and
`host_data` from it. -/
structure Finish where
  id_block_uaddr : Nat
  id_auth_uaddr : Nat
  id_block_en : Nat
  auth_key_en : Nat
  host_data : List Nat

/-! ### KVM wire structs (src/kvm/types.rs) -/

/-- `Init` from src/kvm/types.rs: a single reserved `u64`, always 0 when the
ioctl is issued. -/
structure Init where
  flags : Nat

/-- `LaunchStart` from src/kvm/types.rs (`#[repr(C)]`). -/
structure LaunchStart where
  policy : Nat
  ma_uaddr : Nat
  ma_en : Nat
  imi_en : Nat
  gosvw : List Nat

/-- `LaunchStart::new` from src/kvm/types.rs: projects a `Start` request,
encoding the policy through `Policy::to_u64`. -/
def LaunchStart.new (start : Start) : LaunchStart :=
  { policy := start.policy.to_u64
    ma_uaddr := start.ma_uaddr
    ma_en := start.ma_en
    imi_en := start.imi_en
    gosvw := start.gosvw }

/-- A borrowed Rust byte slice `&[u8]`: its base address (the value of
`as_ptr()`, a ghost `Nat` here) and its contents.  Its length is
`bytes.length`. -/
structure Slice where
  addr : Nat
  bytes : List Nat

/-- `LaunchUpdate` from src/kvm/types.rs (`#[repr(C)]`): `uaddr : u64`,
`len : u32`, then five `u8` fields. -/
structure LaunchUpdate where
  uaddr : Nat
  len : Nat
  imi_page : Nat
  page_type : Nat
  vmpl3_perms : Nat
  vmpl2_perms : Nat
  vmpl1_perms : Nat

/-- The `#[repr(C)]` field order of `LaunchUpdate` in src/kvm/types.rs. -/
def LaunchUpdate.layout : List String :=
  ["uaddr", "len", "imi_page", "page_type", "vmpl3_perms", "vmpl2_perms", "vmpl1_perms"]

/-- `LaunchUpdate::new` from src/kvm/types.rs:
`uaddr = data.as_ptr() as u64`, `len = data.len() as u32` (a narrowing cast,
hence `% 2^32`), the remaining fields copied from the `Update` request with
the page type encoded through `PageType::value`.  Total: no input can make it
panic or read the slice out of bounds (it only takes the slice's address and
length).  Note: the call site in src/launch/launcher.rs passes
`(start_gfn, data, update)`, but the constructor in src/kvm/types.rs takes
only `(data, update)`; the constructor is the authority for the fields. -/
def LaunchUpdate.new (data : Slice) (update : Update) : LaunchUpdate :=
  { uaddr := data.addr
    len := data.bytes.length % 2 ^ 32
    imi_page := update.imi_page
    page_type := update.page_type.value
    vmpl3_perms := update.vmpl3_perms
    vmpl2_perms := update.vmpl2_perms
    vmpl1_perms := update.vmpl1_perms }

/-- `LaunchFinish` from src/kvm/types.rs (`#[repr(C)]`). -/
structure LaunchFinish where
  id_block_uaddr : Nat
  id_auth_uaddr : Nat
  id_block_en : Nat
  auth_key_en : Nat
  host_data : List Nat

/-- `LaunchFinish::new` from src/kvm/types.rs. -/
def LaunchFinish.new (finish : Finish) : LaunchFinish :=
  { id_block_uaddr := finish.id_block_uaddr
    id_auth_uaddr := finish.id_auth_uaddr
    id_block_en := finish.id_block_en
    auth_key_en := finish.auth_key_en
    host_data := finish.host_data }

/-! ### Command envelope (src/launch/linux/ioctl.rs) -/

/-- The `Id` trait produced by `impl_const_id!` in src/launch/linux/ioctl.rs:
each sub-command payload type carries a fixed `u32` command id. -/
class Id (α : Type) where
  ID : Nat

/-- `Init = 256` in the `impl_const_id!` invocation. -/
instance : Id Init := ⟨256⟩

/-- `LaunchStart<'_> = 257`. -/
instance : Id LaunchStart := ⟨257⟩

/-- `LaunchUpdate<'_> = 258`. -/
instance : Id LaunchUpdate := ⟨258⟩

/-- `LaunchFinish<'_> = 259`. -/
instance : Id LaunchFinish := ⟨259⟩

/-- `Command` from src/launch/linux/ioctl.rs (`#[repr(C)]`):
`code : u32`, `data : u64` (address of the payload), `error : u32`,
`sev_fd : u32` (the secure-processor handle number). -/
structure Command where
  code : Nat
  data : Nat
  error : Nat
  sev_fd : Nat

/-- The `#[repr(C)]` field layout of `Command`: name and byte width of each
field, in declaration order. -/
def Command.layout : List (String × Nat) :=
  [("code", 4), ("data", 8), ("error", 4), ("sev_fd", 4)]

/-- `Command::from` from src/launch/linux/ioctl.rs: `code = T::ID`,
`data = subcmd as *const T as u64` (the payload's address, a ghost `Nat`
parameter here), `error = 0`, `sev_fd = sev.as_raw_fd()` (the handle is
modelled by its raw fd). -/
def Command.«from» {α : Type} [Id α] (sev : Nat) (addr : Nat) (subcmd : α) : Command :=
  { code := Id.ID (α := α), data := addr, error := 0, sev_fd := sev }

/-- `Command::from_mut` from src/launch/linux/ioctl.rs: identical to `from`
except that the payload is borrowed mutably. -/
def Command.from_mut {α : Type} [Id α] (sev : Nat) (addr : Nat) (subcmd : α) : Command :=
  { code := Id.ID (α := α), data := addr, error := 0, sev_fd := sev }

/-! ### The launcher (src/launch/launcher.rs)

The external ioctl submission primitive (`SNP_*.ioctl(kvm, &mut cmd)` through
`iocuddle`) is out of scope for the crate; it is modelled as a parameter
`submit : Nat → Command → Except ε Unit` receiving the raw fd of the target
(KVM) handle and the command envelope, and `?` on its result is modelled by
matching and returning the error verbatim. -/

/-- `New` marker type from src/launch/launcher.rs. -/
structure New where

/-- `Started` marker type from src/launch/launcher.rs. -/
structure Started where

/-- `Launcher<T, U, V>` from src/launch/launcher.rs; the two borrowed handles
are modelled by their raw fds. -/
structure Launcher (T : Type) where
  _state : T
  kvm : Nat
  sev : Nat

/-- `Launcher::new` from src/launch/launcher.rs: builds the `New` launcher,
an `Init { flags: 0 }` payload and its envelope, issues `SNP_INIT` on the KVM
handle, and returns the launcher only on success. -/
def Launcher.new {ε : Type} (submit : Nat → Command → Except ε Unit)
    (kvm sev : Nat) (addr : Nat) : Except ε (Launcher New) :=
  let launcher : Launcher New := { _state := {}, kvm := kvm, sev := sev }
  let init : Init := { flags := 0 }
  let cmd := Command.«from» launcher.sev addr init
  match submit launcher.kvm cmd with
  | .error e => .error e
  | .ok _ => .ok launcher

/-- `Launcher::<New>::start` from src/launch/launcher.rs: first mutates the
caller's request in place (`start.policy.flags |= PolicyFlags::RESERVED`),
then encodes `LaunchStart`, issues `SNP_LAUNCH_START`, and on success returns
the `Started` launcher.  The in-place mutation of the borrowed `&mut Start`
is modelled by returning the updated request alongside the result. -/
def Launcher.start {ε : Type} (submit : Nat → Command → Except ε Unit)
    (self : Launcher New) (start : Start) (addr : Nat) :
    Start × Except ε (Launcher Started) :=
  let start :=
    { start with policy :=
        { start.policy with flags := start.policy.flags ||| PolicyFlags.RESERVED } }
  let launch_start := LaunchStart.new start
  let cmd := Command.from_mut self.sev addr launch_start
  match submit self.kvm cmd with
  | .error e => (start, .error e)
  | .ok _ => (start, .ok { _state := {}, kvm := self.kvm, sev := self.sev })

/-- `Launcher::<Started>::update_data` from src/launch/launcher.rs: encodes
`LaunchUpdate` over the borrowed buffer, issues `SNP_LAUNCH_UPDATE`, and
returns unit on success; the session itself is only mutably borrowed and is
not consumed or changed. -/
def Launcher.update_data {ε : Type} (submit : Nat → Command → Except ε Unit)
    (self : Launcher Started) (start_gfn : Nat) (data : Slice) (update : Update)
    (addr : Nat) : Except ε Unit :=
  let launch_update_data := LaunchUpdate.new data update
  let cmd := Command.«from» self.sev addr launch_update_data
  match submit self.kvm cmd with
  | .error e => .error e
  | .ok _ => .ok ()

/-- `Launcher::<Started>::finish` from src/launch/launcher.rs: encodes
`LaunchFinish`, issues `SNP_LAUNCH_FINISH`, consuming the session. -/
def Launcher.finish {ε : Type} (submit : Nat → Command → Except ε Unit)
    (self : Launcher Started) (finish : Finish) (addr : Nat) : Except ε Unit :=
  let launch_finish := LaunchFinish.new finish
  let cmd := Command.«from» self.sev addr launch_finish
  match submit self.kvm cmd with
  | .error e => .error e
  | .ok _ => .ok ()

/-! ### The launch session as a labelled transition system

The type-state discipline of src/launch/launcher.rs induces a step relation
on the possible states of one launch session:

* `pre`: no session value exists yet (before `Launcher::new`);
* `newState`: the caller holds a `Launcher<New>` (only produced by a
  successful `Launcher::new`, src/launch/launcher.rs lines 26-39);
* `startedState`: the caller holds a `Launcher<Started>` (only produced by a
  successful `start`, lines 42-56, which consumes the `New` value);
* `dead`: no session value exists any more — `new` failed (no launcher
  returned), `start` failed (the `New` value was consumed by `self`), or
  `finish` was called (lines 70-77, consuming the `Started` value).

Each operation is labelled with the submission outcome (`true` = the ioctl
succeeded). -/

/-- The four public session operations of src/launch/launcher.rs. -/
inductive Op where
  | new
  | start
  | update_data
  | finish
deriving DecidableEq

/-- The phases a single launch session can be in. -/
inductive Phase where
  | pre
  | newState
  | startedState
  | dead
deriving DecidableEq

/-- One labelled step of the launch session.  Each constructor corresponds to
one way a public method of src/launch/launcher.rs can be invoked and return:
`new` is the only way to obtain a `Launcher<New>` and is only available when
no session exists; `start` requires and consumes the `New` value;
`update_data` requires a live `Started` value, which it merely borrows
(`&mut self`), so the phase is unchanged whatever the outcome; `finish`
requires and consumes the `Started` value.  No method accepts a consumed
value, so `dead` has no outgoing steps. -/
inductive Step : Phase → Op × Bool → Phase → Prop where
  | new_ok : Step .pre (.new, true) .newState
  | new_err : Step .pre (.new, false) .dead
  | start_ok : Step .newState (.start, true) .startedState
  | start_err : Step .newState (.start, false) .dead
  | update (b : Bool) : Step .startedState (.update_data, b) .startedState
  | finish (b : Bool) : Step .startedState (.finish, b) .dead

/-- A realizable call sequence: the reflexive-transitive closure of `Step`,
recording the labels. -/
inductive Trace : Phase → List (Op × Bool) → Phase → Prop where
  | nil (q : Phase) : Trace q [] q
  | cons {q q' q'' : Phase} {l : Op × Bool} {tr : List (Op × Bool)} :
      Step q l q' → Trace q' tr q'' → Trace q (l :: tr) q''

/-- Shape of a realizable call sequence once a `Started` session is held:
zero or more `update_data` calls, then at most one `finish`. -/
def StartedShape (tr : List (Op × Bool)) : Prop :=
  ∃ updates tail, tr = updates ++ tail ∧
    (∀ x ∈ updates, x.1 = Op.update_data) ∧
    (tail = [] ∨ ∃ b, tail = [(Op.finish, b)])

/-- Shape of a realizable call sequence once a `New` session is held: at most
one `start`; if it failed nothing follows, if it succeeded a `Started`
sequence follows. -/
def AfterNewShape (tr : List (Op × Bool)) : Prop :=
  tr = [] ∨ ∃ b rest, tr = (Op.start, b) :: rest ∧
    (b = false → rest = []) ∧ (b = true → StartedShape rest)

/-- Shape of every realizable call sequence of one launch session: `new`
first; if it failed nothing follows, if it succeeded at most one successful
`start` follows, then zero or more `update_data` calls, then at most one
`finish`. -/
def SeqShape (tr : List (Op × Bool)) : Prop :=
  tr = [] ∨ ∃ b rest, tr = (Op.new, b) :: rest ∧
    (b = false → rest = []) ∧ (b = true → AfterNewShape rest)

/-! ### Bit-level helper lemmas -/

lemma and_bit_iff (f k : Nat) : (f &&& 2 ^ k = 2 ^ k) ↔ f.testBit k = true := by
  rw [Nat.and_two_pow]
  cases h : f.testBit k <;> simp [(Nat.two_pow_pos k).ne]

lemma testBit_eq_decide_and (f k : Nat) : f.testBit k = decide (f &&& 2 ^ k = 2 ^ k) := by
  have h := and_bit_iff f k
  cases hb : f.testBit k <;> simp_all

/-- Characterisation of `PolicyFlags::to_u16`: bit 0 mirrors the SMT input
bit, bit 1 (Reserved) is always set, bits 2 and 3 mirror the MIGRATE_MA and
DEBUG input bits, and the result fits in 4 bits. -/
lemma to_u16_bits (f : Nat) :
    (PolicyFlags.to_u16 f).testBit 0 = f.testBit 0 ∧
    (PolicyFlags.to_u16 f).testBit 1 = true ∧
    (PolicyFlags.to_u16 f).testBit 2 = f.testBit 2 ∧
    (PolicyFlags.to_u16 f).testBit 3 = f.testBit 3 ∧
    PolicyFlags.to_u16 f < 16 := by
  have hb2 : f.testBit 2 = decide (f &&& 4 = 4) := by
    have h := testBit_eq_decide_and f 2
    norm_num at h
    exact h
  have hb3 : f.testBit 3 = decide (f &&& 8 = 8) := by
    have h := testBit_eq_decide_and f 3
    norm_num at h
    exact h
  by_cases hc1 : f % 2 = 1 <;> by_cases hc2 : f &&& 4 = 4 <;> by_cases hc3 : f &&& 8 = 8 <;>
    simp [PolicyFlags.to_u16, PolicyFlags.SMT, PolicyFlags.MIGRATE_MA, PolicyFlags.DEBUG,
      Nat.and_one_is_mod, hb2, hb3, hc1, hc2, hc3] <;>
    decide

/-- Pointwise description of every bit of `Policy::to_u64`. -/
lemma to_u64_testBit (p : Policy) (j : Nat) :
    (Policy.to_u64 p).testBit j =
      ((p.minfw.minor.testBit j ||
        (decide (8 ≤ j) && p.minfw.major.testBit (j - 8)) ||
        (decide (16 ≤ j) && (PolicyFlags.to_u16 p.flags).testBit (j - 16))) &&
       decide (j < 24)) := by
  have hm : (0x00FFFFFF : Nat) = 2 ^ 24 - 1 := by norm_num
  simp only [Policy.to_u64, hm, Nat.testBit_and, Nat.testBit_or, Nat.testBit_shiftLeft,
    Nat.testBit_two_pow_sub_one]

lemma testBit_false_of_lt_ge {x i j : Nat} (hx : x < 2 ^ i) (hij : i ≤ j) :
    x.testBit j = false :=
  Nat.testBit_lt_two_pow (Nat.lt_of_lt_of_le hx (Nat.pow_le_pow_right (by norm_num) hij))

/-! ### Claims about the policy codec -/

/-- C2: for every policy (with its `minfw` components in `u8` range, as typed
in the source), `Policy::to_u64` encodes a value strictly below `2^24` with
`minfw.minor` in bits `[0,8)`, `minfw.major` in bits `[8,16)`, the SMT input
flag (input bit 0) at bit 16, the Reserved bit at bit 17, MIGRATE_MA (input
bit 2) at bit 18, DEBUG (input bit 3) at bit 19, and every bit at position 20
and above clear. -/
theorem policy_to_u64_wire_layout (p : Policy)
    (hmin : p.minfw.minor < 256) (hmaj : p.minfw.major < 256) :
    Policy.to_u64 p < 2 ^ 24 ∧
    (∀ i, i < 8 → (Policy.to_u64 p).testBit i = p.minfw.minor.testBit i) ∧
    (∀ i, i < 8 → (Policy.to_u64 p).testBit (8 + i) = p.minfw.major.testBit i) ∧
    (Policy.to_u64 p).testBit 16 = p.flags.testBit 0 ∧
    (Policy.to_u64 p).testBit 17 = true ∧
    (Policy.to_u64 p).testBit 18 = p.flags.testBit 2 ∧
    (Policy.to_u64 p).testBit 19 = p.flags.testBit 3 ∧
    (∀ i, 20 ≤ i → (Policy.to_u64 p).testBit i = false) := by
  obtain ⟨hb0, hb1, hb2, hb3, hlt⟩ := to_u16_bits p.flags
  have hmin' : p.minfw.minor < 2 ^ 8 := hmin
  have hmaj' : p.minfw.major < 2 ^ 8 := hmaj
  refine ⟨?_, ?_, ?_, ?_, ?_, ?_, ?_, ?_⟩
  · exact Nat.lt_of_le_of_lt Nat.and_le_right (by norm_num)
  · intro i hi
    rw [to_u64_testBit]
    simp [show ¬ (8 ≤ i) from by omega, show ¬ (16 ≤ i) from by omega,
      show i < 24 from by omega]
  · intro i hi
    rw [to_u64_testBit]
    simp [show (8 ≤ 8 + i) from by omega, show ¬ (16 ≤ 8 + i) from by omega,
      show 8 + i < 24 from by omega, Nat.add_sub_cancel_left,
      testBit_false_of_lt_ge hmin' (show 8 ≤ 8 + i from by omega)]
  · rw [to_u64_testBit]
    simp [testBit_false_of_lt_ge hmin' (by norm_num : 8 ≤ 16),
      testBit_false_of_lt_ge hmaj' (by norm_num : 8 ≤ 16 - 8), hb0]
  · rw [to_u64_testBit]
    simp [hb1]
  · rw [to_u64_testBit]
    simp [testBit_false_of_lt_ge hmin' (by norm_num : 8 ≤ 18),
      testBit_false_of_lt_ge hmaj' (by norm_num : 8 ≤ 18 - 8), hb2]
  · rw [to_u64_testBit]
    simp [testBit_false_of_lt_ge hmin' (by norm_num : 8 ≤ 19),
      testBit_false_of_lt_ge hmaj' (by norm_num : 8 ≤ 19 - 8), hb3]
  · intro i hi
    rw [to_u64_testBit]
    rcases Nat.lt_or_ge i 24 with h24 | h24
    · have hu : PolicyFlags.to_u16 p.flags < 2 ^ 4 := hlt
      simp [testBit_false_of_lt_ge hmin' (show 8 ≤ i from by omega),
        testBit_false_of_lt_ge hmaj' (show 8 ≤ i - 8 from by omega),
        testBit_false_of_lt_ge hu (show 4 ≤ i - 16 from by omega)]
    · simp [show ¬ (i < 24) from by omega]

/-- Witness for C2: the layout theorem applied to the concrete policy
`{flags: SMT|DEBUG, minfw: {major: 3, minor: 7}}`. -/
theorem policy_to_u64_wire_layout_sample :
    (Policy.to_u64 { flags := 9, minfw := { major := 3, minor := 7 } }).testBit 17 = true ∧
    (Policy.to_u64 { flags := 9, minfw := { major := 3, minor := 7 } }).testBit 0 =
      (7 : Nat).testBit 0 ∧
    Policy.to_u64 { flags := 9, minfw := { major := 3, minor := 7 } } < 2 ^ 24 := by
  have h := policy_to_u64_wire_layout { flags := 9, minfw := { major := 3, minor := 7 } }
    (by decide) (by decide)
  exact ⟨h.2.2.2.2.1, h.2.1 0 (by decide), h.1⟩

/-- C3 counterexample: the policy `{flags: SMT, minfw: {major: 1, minor: 2}}`
does not encode to `0x010102` (the Reserved bit is forced, so the flag nibble
is `0b11`, giving `0x030102`). -/
theorem policy_smt_1_2_not_0x010102 :
    Policy.to_u64 { flags := PolicyFlags.SMT, minfw := { major := 1, minor := 2 } }
      ≠ 0x010102 := by
  decide

/-- C3 (amended): the policy `{flags: SMT, minfw: {major: 1, minor: 2}}`
encodes to the wire value `0x030102`. -/
theorem policy_smt_1_2_encodes_0x030102 :
    Policy.to_u64 { flags := PolicyFlags.SMT, minfw := { major := 1, minor := 2 } }
      = 0x030102 := by
  decide

/-- C4: for every policy, whatever its input flags, the encoded flag value
`PolicyFlags::to_u16` has bit 1 (Reserved) set, and therefore
`Policy::to_u64` has bit 17 set. -/
theorem policy_reserved_bit_forced (p : Policy) :
    (PolicyFlags.to_u16 p.flags).testBit 1 = true ∧
    (Policy.to_u64 p).testBit 17 = true := by
  obtain ⟨-, hb1, -, -, -⟩ := to_u16_bits p.flags
  refine ⟨hb1, ?_⟩
  rw [to_u64_testBit]
  simp [hb1]

/-- Witness for C4: the Reserved bit is set even for the all-zero policy. -/
theorem policy_reserved_bit_forced_sample :
    (PolicyFlags.to_u16 ((0 : Nat))).testBit 1 = true ∧
    (Policy.to_u64 { flags := 0, minfw := { major := 0, minor := 0 } }).testBit 17 = true :=
  policy_reserved_bit_forced { flags := 0, minfw := { major := 0, minor := 0 } }

/-- C6: `PageType::value` is total (it is a Lean function on the six-variant
enum) and maps `Normal` to 1, `Vmsa` to 2, `Zero` to 3, `Unmeasured` to 4,
`Secrets` to 5 and `Cpuid` to 6; it is injective, and its image is exactly
`{1, 2, 3, 4, 5, 6}`. -/
theorem page_type_value_bijective :
    (PageType.value .Normal = 1 ∧ PageType.value .Vmsa = 2 ∧
      PageType.value .Zero = 3 ∧ PageType.value .Unmeasured = 4 ∧
      PageType.value .Secrets = 5 ∧ PageType.value .Cpuid = 6) ∧
    Function.Injective PageType.value ∧
    (∀ n : Nat, (∃ k : PageType, k.value = n) ↔
      (n = 1 ∨ n = 2 ∨ n = 3 ∨ n = 4 ∨ n = 5 ∨ n = 6)) := by
  refine ⟨⟨rfl, rfl, rfl, rfl, rfl, rfl⟩, ?_, ?_⟩
  · intro a b h
    cases a <;> cases b <;> first | rfl | simp [PageType.value] at h
  · intro n
    constructor
    · rintro ⟨k, rfl⟩
      cases k <;> simp [PageType.value]
    · rintro (rfl | rfl | rfl | rfl | rfl | rfl)
      · exact ⟨.Normal, rfl⟩
      · exact ⟨.Vmsa, rfl⟩
      · exact ⟨.Zero, rfl⟩
      · exact ⟨.Unmeasured, rfl⟩
      · exact ⟨.Secrets, rfl⟩
      · exact ⟨.Cpuid, rfl⟩

/-- Witness for C6: the table theorem at the concrete variant `Secrets` and
the image property at the concrete code 5. -/
theorem page_type_value_bijective_sample :
    PageType.value PageType.Secrets = 5 ∧ ∃ k : PageType, PageType.value k = 5 :=
  ⟨page_type_value_bijective.1.2.2.2.2.1,
    (page_type_value_bijective.2.2 5).mpr (by decide)⟩

/-! ### Claims about the command envelope -/

/-- C5: for every sub-command payload, the envelope built by `Command::from`
or `Command::from_mut` carries the payload type's fixed command id — `Init` =
256, `LaunchStart` = 257, `LaunchUpdate` = 258, `LaunchFinish` = 259 — and
the envelope consists of exactly the fields `code` (u32), payload address
(u64), `error` (u32) and target handle (u32), in that order. -/
theorem command_envelope_ids_and_layout :
    (∀ (sev addr : Nat) (x : Init),
      (Command.«from» sev addr x).code = 256 ∧ (Command.from_mut sev addr x).code = 256) ∧
    (∀ (sev addr : Nat) (x : LaunchStart),
      (Command.«from» sev addr x).code = 257 ∧ (Command.from_mut sev addr x).code = 257) ∧
    (∀ (sev addr : Nat) (x : LaunchUpdate),
      (Command.«from» sev addr x).code = 258 ∧ (Command.from_mut sev addr x).code = 258) ∧
    (∀ (sev addr : Nat) (x : LaunchFinish),
      (Command.«from» sev addr x).code = 259 ∧ (Command.from_mut sev addr x).code = 259) ∧
    Command.layout = [("code", 4), ("data", 8), ("error", 4), ("sev_fd", 4)] :=
  ⟨fun _ _ _ => ⟨rfl, rfl⟩, fun _ _ _ => ⟨rfl, rfl⟩, fun _ _ _ => ⟨rfl, rfl⟩,
    fun _ _ _ => ⟨rfl, rfl⟩, rfl⟩

/-- Witness for C5: the id theorem applied to a concrete `Init` payload. -/
theorem command_envelope_ids_and_layout_sample :
    (Command.«from» 4 4096 ({ flags := 0 } : Init)).code = 256 :=
  (command_envelope_ids_and_layout.1 4 4096 { flags := 0 }).1

/-! ### Claims about the launcher operations -/

/-- C9: `Launcher::new` always constructs an `Init` sub-command whose single
64-bit `flags` field is 0, wraps it in an envelope carrying command id 256,
submits exactly that envelope on the KVM handle, and only returns the `New`
launcher when the submission succeeds. -/
theorem new_submits_zero_init {ε : Type} (submit : Nat → Command → Except ε Unit)
    (kvm sev addr : Nat) :
    (∃ init : Init, init.flags = 0 ∧
      (Command.«from» sev addr init).code = 256 ∧
      Launcher.new submit kvm sev addr =
        match submit kvm (Command.«from» sev addr init) with
        | .error e => .error e
        | .ok _ => .ok { _state := {}, kvm := kvm, sev := sev }) :=
  ⟨{ flags := 0 }, rfl, rfl, rfl⟩

/-- Witness for C9: with an always-succeeding submission primitive, `new`
returns the `New` launcher built from the two handles. -/
theorem new_submits_zero_init_sample :
    ∃ init : Init, init.flags = 0 ∧
      (Command.«from» 2 4096 init).code = 256 ∧
      Launcher.new (fun _ _ => Except.ok ()) 1 2 4096 =
        match (fun (_ : Nat) (_ : Command) => Except.ok (ε := Unit) ()) 1
            (Command.«from» 2 4096 init) with
        | .error e => .error e
        | .ok _ => .ok { _state := {}, kvm := 1, sev := 2 } :=
  new_submits_zero_init (fun _ _ => Except.ok ()) 1 2 4096

/-- C10: `Launcher::start` mutates the caller's `Start` request in place:
whatever the submission outcome, the request afterwards has
`PolicyFlags::RESERVED` ORed into `policy.flags` (so its bit 1 is set), and
no other field — `policy.minfw`, `ma_uaddr`, `ma_en`, `imi_en`, `gosvw` — is
modified. -/
theorem start_request_frame_effect {ε : Type} (submit : Nat → Command → Except ε Unit)
    (self : Launcher New) (s : Start) (addr : Nat) :
    ((Launcher.start submit self s addr).1.policy.flags =
      s.policy.flags ||| PolicyFlags.RESERVED) ∧
    ((Launcher.start submit self s addr).1.policy.flags.testBit 1 = true) ∧
    ((Launcher.start submit self s addr).1.policy.minfw = s.policy.minfw) ∧
    ((Launcher.start submit self s addr).1.ma_uaddr = s.ma_uaddr) ∧
    ((Launcher.start submit self s addr).1.ma_en = s.ma_en) ∧
    ((Launcher.start submit self s addr).1.imi_en = s.imi_en) ∧
    ((Launcher.start submit self s addr).1.gosvw = s.gosvw) := by
  have hfst : (Launcher.start submit self s addr).1 =
      { s with policy :=
          { s.policy with flags := s.policy.flags ||| PolicyFlags.RESERVED } } := by
    unfold Launcher.start
    cases h : submit self.kvm (Command.from_mut self.sev addr
      (LaunchStart.new { s with policy :=
        { s.policy with flags := s.policy.flags ||| PolicyFlags.RESERVED } })) <;>
      simp [h]
  rw [hfst]
  refine ⟨rfl, ?_, rfl, rfl, rfl, rfl, rfl⟩
  simp only [Nat.testBit_or]
  have h2 : Nat.testBit PolicyFlags.RESERVED 1 = true := by decide
  simp [h2]

/-- Witness for C10: the frame-effect theorem at a concrete request with an
always-failing submission primitive: the Reserved bit is set even though the
call failed, and `ma_uaddr` is untouched. -/
theorem start_request_frame_effect_sample :
    ((Launcher.start (fun _ _ => Except.error (7 : Nat)) { _state := {}, kvm := 1, sev := 2 }
        { policy := { flags := 0, minfw := { major := 0, minor := 0 } },
          ma_uaddr := 99, ma_en := 0, imi_en := 0, gosvw := [] } 4096).1.policy.flags.testBit 1
      = true) ∧
    ((Launcher.start (fun _ _ => Except.error (7 : Nat)) { _state := {}, kvm := 1, sev := 2 }
        { policy := { flags := 0, minfw := { major := 0, minor := 0 } },
          ma_uaddr := 99, ma_en := 0, imi_en := 0, gosvw := [] } 4096).1.ma_uaddr = 99) := by
  have h := start_request_frame_effect (fun _ _ => Except.error (7 : Nat))
    { _state := {}, kvm := 1, sev := 2 }
    { policy := { flags := 0, minfw := { major := 0, minor := 0 } },
      ma_uaddr := 99, ma_en := 0, imi_en := 0, gosvw := [] } 4096
  exact ⟨h.2.1, h.2.2.2.1⟩

lemma launchUpdate_new_len (a : Nat) (bs : List Nat) (u : Update) :
    (LaunchUpdate.new { addr := a, bytes := bs } u).len = bs.length % 2 ^ 32 := rfl

/-- C7 counterexample: the length field is a `u32` and `LaunchUpdate::new`
narrows `data.len()` with an `as` cast, so for a buffer of `2^32` bytes the
encoded `len` is 0, not the buffer's exact length. -/
theorem launch_update_len_truncation :
    ¬ ((LaunchUpdate.new { addr := 0, bytes := List.replicate (2 ^ 32) 0 }
        { imi_page := 0, page_type := .Normal, vmpl3_perms := 0, vmpl2_perms := 0,
          vmpl1_perms := 0 }).len
      = (List.replicate (2 ^ 32) (0 : Nat)).length) := by
  intro h
  have e1 := launchUpdate_new_len 0 (List.replicate (2 ^ 32) 0)
    { imi_page := 0, page_type := .Normal, vmpl3_perms := 0, vmpl2_perms := 0,
      vmpl1_perms := 0 }
  have e2 : (List.replicate (2 ^ 32) (0 : Nat)).length = 2 ^ 32 :=
    List.length_replicate _ _
  have t : (List.replicate (2 ^ 32) (0 : Nat)).length
      = (List.replicate (2 ^ 32) (0 : Nat)).length % 2 ^ 32 := (h.symm).trans e1
  rw [e2] at t
  rw [Nat.mod_self] at t
  exact absurd t (by norm_num)

/-- C7 (amended): for every borrowed buffer (the empty one included) and
every `Update` request, the `LaunchUpdate` encoding used by `update_data`
sets `uaddr` to the buffer's address and `len` to the buffer's length
truncated to 32 bits — equal to the exact length whenever that length is
below `2^32`, and in particular 0 for the empty buffer — copies `imi_page`,
encodes the page type via `PageType::value`, and carries the three
permission bytes in field order `vmpl3_perms`, `vmpl2_perms`, `vmpl1_perms`;
the encoder is a total function of the buffer's address and length, so it
cannot panic or read out of bounds, and `update_data` submits exactly this
encoding. -/
theorem launch_update_encoding (data : Slice) (upd : Update) :
    (LaunchUpdate.new data upd).uaddr = data.addr ∧
    (LaunchUpdate.new data upd).len = data.bytes.length % 2 ^ 32 ∧
    (data.bytes.length < 2 ^ 32 → (LaunchUpdate.new data upd).len = data.bytes.length) ∧
    (data.bytes = [] → (LaunchUpdate.new data upd).len = 0) ∧
    (LaunchUpdate.new data upd).imi_page = upd.imi_page ∧
    (LaunchUpdate.new data upd).page_type = upd.page_type.value ∧
    (LaunchUpdate.new data upd).vmpl3_perms = upd.vmpl3_perms ∧
    (LaunchUpdate.new data upd).vmpl2_perms = upd.vmpl2_perms ∧
    (LaunchUpdate.new data upd).vmpl1_perms = upd.vmpl1_perms ∧
    LaunchUpdate.layout =
      ["uaddr", "len", "imi_page", "page_type", "vmpl3_perms", "vmpl2_perms",
        "vmpl1_perms"] ∧
    (∀ {ε : Type} (submit : Nat → Command → Except ε Unit) (self : Launcher Started)
        (gfn addr : Nat),
      Launcher.update_data submit self gfn data upd addr =
        match submit self.kvm (Command.«from» self.sev addr (LaunchUpdate.new data upd)) with
        | .error e => .error e
        | .ok _ => .ok ()) := by
  refine ⟨rfl, rfl, ?_, ?_, rfl, rfl, rfl, rfl, rfl, rfl, ?_⟩
  · intro h
    show data.bytes.length % 2 ^ 32 = data.bytes.length
    exact Nat.mod_eq_of_lt h
  · intro h
    simp [LaunchUpdate.new, h]
  · intro ε submit self gfn addr
    rfl

/-- Witness for C7: the encoding theorem at a concrete two-byte buffer and a
concrete empty buffer, both below the `u32` bound. -/
theorem launch_update_encoding_sample :
    (LaunchUpdate.new { addr := 4096, bytes := [7, 8] }
      { imi_page := 0, page_type := .Vmsa, vmpl3_perms := 1, vmpl2_perms := 2,
        vmpl1_perms := 3 }).len = ([7, 8] : List Nat).length ∧
    (LaunchUpdate.new { addr := 4096, bytes := [] }
      { imi_page := 0, page_type := .Vmsa, vmpl3_perms := 1, vmpl2_perms := 2,
        vmpl1_perms := 3 }).len = 0 := by
  refine ⟨?_, ?_⟩
  · exact (launch_update_encoding { addr := 4096, bytes := [7, 8] }
      { imi_page := 0, page_type := .Vmsa, vmpl3_perms := 1, vmpl2_perms := 2,
        vmpl1_perms := 3 }).2.2.1 (by norm_num)
  · exact (launch_update_encoding { addr := 4096, bytes := [] }
      { imi_page := 0, page_type := .Vmsa, vmpl3_perms := 1, vmpl2_perms := 2,
        vmpl1_perms := 3 }).2.2.2.1 rfl

/-- C8: whenever the external submission primitive answers the submitted
envelope with an error, each launcher operation returns that error verbatim
(no translation, classification or retry) and no phase transition occurs: a
failed `new` or `start` yields no `New` or `Started` session value, and a
failed `update_data` leaves the (merely borrowed) session in phase
`Started` — the `update_data` steps of the session transition system
preserve `startedState` for both outcomes. -/
theorem submission_error_propagation {ε : Type} (e : ε) :
    (∀ (submit : Nat → Command → Except ε Unit) (kvm sev addr : Nat),
      submit kvm (Command.«from» sev addr ({ flags := 0 } : Init)) = .error e →
      Launcher.new submit kvm sev addr = .error e ∧
      ∀ l, Launcher.new submit kvm sev addr ≠ .ok l) ∧
    (∀ (submit : Nat → Command → Except ε Unit) (self : Launcher New) (s : Start)
        (addr : Nat),
      submit self.kvm (Command.from_mut self.sev addr
        (LaunchStart.new { s with policy :=
          { s.policy with flags := s.policy.flags ||| PolicyFlags.RESERVED } })) =
        .error e →
      (Launcher.start submit self s addr).2 = .error e ∧
      ∀ l, (Launcher.start submit self s addr).2 ≠ .ok l) ∧
    (∀ (submit : Nat → Command → Except ε Unit) (self : Launcher Started)
        (gfn : Nat) (data : Slice) (upd : Update) (addr : Nat),
      submit self.kvm (Command.«from» self.sev addr (LaunchUpdate.new data upd)) =
        .error e →
      Launcher.update_data submit self gfn data upd addr = .error e) ∧
    (∀ (submit : Nat → Command → Except ε Unit) (self : Launcher Started) (f : Finish)
        (addr : Nat),
      submit self.kvm (Command.«from» self.sev addr (LaunchFinish.new f)) = .error e →
      Launcher.finish submit self f addr = .error e) ∧
    (∀ (b : Bool) (q : Phase), Step .startedState (.update_data, b) q →
      q = .startedState) := by
  refine ⟨?_, ?_, ?_, ?_, ?_⟩
  · intro submit kvm sev addr h
    refine ⟨?_, ?_⟩
    · simp only [Launcher.new]
      rw [h]
    · intro l hl
      simp only [Launcher.new] at hl
      rw [h] at hl
      exact Except.noConfusion hl
  · intro submit self s addr h
    refine ⟨?_, ?_⟩
    · simp only [Launcher.start]
      rw [h]
    · intro l hl
      simp only [Launcher.start] at hl
      rw [h] at hl
      exact Except.noConfusion hl
  · intro submit self gfn data upd addr h
    simp only [Launcher.update_data]
    rw [h]
  · intro submit self f addr h
    simp only [Launcher.finish]
    rw [h]
  · intro b q h
    cases h
    rfl

/-- Witness for C8: a submission primitive that always fails with error code
12 makes `new` fail with exactly error 12. -/
theorem submission_error_propagation_sample :
    Launcher.new (fun _ _ => Except.error (12 : Nat)) 1 2 4096 = Except.error 12 :=
  ((submission_error_propagation (12 : Nat)).1 (fun _ _ => Except.error 12) 1 2 4096 rfl).1

/-! ### Claims about the type-state protocol -/

lemma trace_from_dead {p : Phase} {tr : List (Op × Bool)} {q : Phase}
    (h : Trace p tr q) : p = Phase.dead → tr = [] ∧ q = Phase.dead := by
  induction h with
  | nil q => intro hp; exact ⟨rfl, hp⟩
  | cons hs ht ih =>
      intro hp
      subst hp
      cases hs

lemma trace_from_started {p : Phase} {tr : List (Op × Bool)} {q : Phase}
    (h : Trace p tr q) : p = Phase.startedState → StartedShape tr := by
  induction h with
  | nil q => intro _; exact ⟨[], [], by simp, by simp, Or.inl rfl⟩
  | cons hs ht ih =>
      intro hp
      subst hp
      cases hs with
      | update b =>
          obtain ⟨updates, tail, rfl, hall, htail⟩ := ih rfl
          refine ⟨(Op.update_data, b) :: updates, tail, rfl, ?_, htail⟩
          intro x hx
          rcases List.mem_cons.mp hx with rfl | hx'
          · rfl
          · exact hall x hx'
      | finish b =>
          obtain ⟨rfl, -⟩ := trace_from_dead ht rfl
          exact ⟨[], [(Op.finish, b)], rfl, by simp, Or.inr ⟨b, rfl⟩⟩

lemma trace_from_newState {p : Phase} {tr : List (Op × Bool)} {q : Phase}
    (h : Trace p tr q) : p = Phase.newState → AfterNewShape tr := by
  cases h with
  | nil => intro _; exact Or.inl rfl
  | cons hs ht =>
      intro hp
      subst hp
      cases hs with
      | start_ok =>
          exact Or.inr ⟨true, _, rfl, by simp, fun _ => trace_from_started ht rfl⟩
      | start_err =>
          exact Or.inr ⟨false, _, rfl, fun _ => (trace_from_dead ht rfl).1, by simp⟩

lemma trace_started_mem {p : Phase} {tr : List (Op × Bool)} {q : Phase}
    (h : Trace p tr q) :
    p = Phase.pre ∨ p = Phase.newState → q = Phase.startedState →
    (Op.start, true) ∈ tr := by
  induction h with
  | nil q =>
      rintro (rfl | rfl) hq <;> exact Phase.noConfusion hq
  | cons hs ht ih =>
      rintro (rfl | rfl) rfl
      · cases hs with
        | new_ok => exact List.mem_cons_of_mem _ (ih (Or.inr rfl) rfl)
        | new_err => exact Phase.noConfusion (trace_from_dead ht rfl).2
      · cases hs with
        | start_ok => exact List.mem_cons_self _ _
        | start_err => exact Phase.noConfusion (trace_from_dead ht rfl).2

/-- C1: over the step relation induced by the type-state API of
src/launch/launcher.rs, every realizable call sequence of one launch session
has the form `new`, then at most one successful `start`, then zero or more
`update_data` calls, then at most one `finish` (`SeqShape`); moreover
`start` is never invocable on an already-`Started` session, `update_data`
never changes the phase, `update_data` and `finish` are only invocable in
phase `Started`, phase `Started` is only reachable through a successful
`start`, and no operation is invocable once the session value is gone
(after `finish`, or after a failed `new` or `start`). -/
theorem launch_typestate_protocol :
    (∀ (tr : List (Op × Bool)) (q : Phase), Trace Phase.pre tr q → SeqShape tr) ∧
    (∀ (b : Bool) (q : Phase), ¬ Step Phase.startedState (Op.start, b) q) ∧
    (∀ (b : Bool) (q : Phase), Step Phase.startedState (Op.update_data, b) q →
      q = Phase.startedState) ∧
    (∀ (p q : Phase) (o : Op) (b : Bool), Step p (o, b) q →
      (o = Op.update_data ∨ o = Op.finish) → p = Phase.startedState) ∧
    (∀ (tr : List (Op × Bool)), Trace Phase.pre tr Phase.startedState →
      (Op.start, true) ∈ tr) ∧
    (∀ (l : Op × Bool) (q : Phase), ¬ Step Phase.dead l q) := by
  refine ⟨?_, ?_, ?_, ?_, ?_, ?_⟩
  · intro tr q h
    cases h with
    | nil => exact Or.inl rfl
    | cons hs ht =>
        cases hs with
        | new_ok =>
            exact Or.inr ⟨true, _, rfl, by simp, fun _ => trace_from_newState ht rfl⟩
        | new_err =>
            exact Or.inr ⟨false, _, rfl, fun _ => (trace_from_dead ht rfl).1, by simp⟩
  · intro b q h
    nomatch h
  · intro b q h
    cases h
    rfl
  · intro p q o b h ho
    cases h <;> first | rfl | (rcases ho with h' | h' <;> cases h')
  · intro tr h
    exact trace_started_mem h (Or.inl rfl) rfl
  · intro l q h
    nomatch h

/-- Witness for C1: the shape property applied to the concrete realizable
sequence `new` (ok), `start` (ok), one `update_data` (ok), `finish` (ok). -/
theorem launch_typestate_protocol_sample :
    SeqShape [(Op.new, true), (Op.start, true), (Op.update_data, true), (Op.finish, true)] :=
  launch_typestate_protocol.1 _ Phase.dead
    (Trace.cons Step.new_ok (Trace.cons Step.start_ok (Trace.cons (Step.update true)
      (Trace.cons (Step.finish true) (Trace.nil _)))))

end Snp
